import Mathlib

/-!
Shallow embedding of the sentiment-aggregation and recommendation engine of
the Stock-Agent repository (src/app.py, src/main.py).

Python floats are modelled as rationals (`ℚ`); the only arithmetic failure
the pipeline can raise is Python's `ZeroDivisionError` (division by a zero
float), modelled with `Except`.  News records are modelled after scoring:
each carries the polarity TextBlob assigned to its extracted title.
-/

namespace StockAgent

/-- A scored news record: title, publisher, link and the TextBlob polarity
of the title (src/app.py lines 617-626). -/
structure Headline where
  title : String
  publisher : String
  link : String
  polarity : ℚ
deriving DecidableEq

/-- The discrete recommendation produced at src/app.py lines 637-642. -/
inductive Recommendation where
  | BUY | SELL | HOLD
deriving DecidableEq

/-- Risk tier from beta, src/app.py lines 649-657. -/
inductive RiskRating where
  | Low | Medium | High
deriving DecidableEq

/-- Social-buzz tier from news volume, src/app.py lines 660-672. -/
inductive BuzzTier where
  | VeryHigh | High | Moderate | Low
deriving DecidableEq

/-- The runtime error Python raises when a float is divided by zero;
the only failure the per-ticker pipeline can raise. -/
inductive PyError where
  | zeroDivisionError
deriving DecidableEq

/-- The scenario multiplier table of `apply_scenario` (src/app.py lines
99-106): `scenarios.get(scenario, 1.0)` returns the entry for the given
name, defaulting to `1.0` for any name not in the dict. -/
def scenarioMultiplier (scenario : String) : ℚ :=
  if scenario = "None" then 1
  else if scenario = "Interest Rates +1%" then 3/4
  else if scenario = "Tech Acquisition Announced" then 13/10
  else if scenario = "Global Recession Fear" then 1/2
  else if scenario = "Earnings Beat Expectation" then 7/5
  else if scenario = "Supply Chain Disruption" then 13/20
  else 1

/-- Function `apply_scenario` (src/app.py lines 97-107):
`base_sentiment * scenarios.get(scenario, 1.0)`. -/
def apply_scenario (base_sentiment : ℚ) (scenario : String) : ℚ :=
  base_sentiment * scenarioMultiplier scenario

/-- The recognized scenario names: the keys of the `scenarios` dict in
`apply_scenario`, also the options of the scenario selectbox
(src/app.py lines 605-610). -/
def recognizedScenarios : List String :=
  ["None", "Interest Rates +1%", "Tech Acquisition Announced",
   "Global Recession Fear", "Earnings Beat Expectation", "Supply Chain Disruption"]

/-- Accumulator `total_polarity` (src/app.py lines 613-625): sum of the polarities of
all news items. -/
def total_polarity (news : List Headline) : ℚ :=
  (news.map Headline.polarity).sum

/-- Aggregate `avg_polarity` (src/app.py lines 616-630): `total_polarity / len(news)`
when the news list is truthy, `0` otherwise. -/
def avg_polarity (news : List Headline) : ℚ :=
  if news.isEmpty then 0 else total_polarity news / news.length

/-- The recommendation branch (src/app.py lines 637-642). -/
def recommendation (adjusted_sentiment : ℚ) : Recommendation :=
  if adjusted_sentiment > 1/10 then .BUY
  else if adjusted_sentiment < -(1/10) then .SELL
  else .HOLD

/-- Formula `target_price = current_price * (1 + adjusted_sentiment * 0.3)`
(src/app.py line 645). -/
def target_price (current_price adjusted_sentiment : ℚ) : ℚ :=
  current_price * (1 + adjusted_sentiment * (3/10))

/-- Formula `upside_percent = ((target_price - current_price) / current_price) * 100`
(src/app.py line 646).  Python raises `ZeroDivisionError` when
`current_price` is the zero float; otherwise the division is ordinary
field division. -/
def upside_percent (tp current_price : ℚ) : Except PyError ℚ :=
  if current_price = 0 then .error .zeroDivisionError
  else .ok ((tp - current_price) / current_price * 100)

/-- The beta-based risk branch (src/app.py lines 649-657). -/
def risk_rating (beta : ℚ) : RiskRating :=
  if beta < 4/5 then .Low
  else if beta < 3/2 then .Medium
  else .High

/-- The buzz-tier branch on `news_volume` (src/app.py lines 661-672). -/
def social_buzz (news_volume : Nat) : BuzzTier :=
  if news_volume > 15 then .VeryHigh
  else if news_volume > 8 then .High
  else if news_volume > 3 then .Moderate
  else .Low

/-- The displayed mentions string per tier (src/app.py lines 661-672):
`"{n*500}+"`, `"{n*300}+"`, `"{n*150}+"`, or `"<{n*100}"`. -/
def buzz_mentions (news_volume : Nat) : String :=
  if news_volume > 15 then toString (news_volume * 500) ++ "+"
  else if news_volume > 8 then toString (news_volume * 300) ++ "+"
  else if news_volume > 3 then toString (news_volume * 150) ++ "+"
  else "<" ++ toString (news_volume * 100)

/-- The externally supplied inputs of one ticker's analysis pass
(src/app.py lines 542-610): ticker symbol, current price and beta from
the fundamentals provider, the scored news list, and the selected
scenario name. -/
structure TickerInput where
  ticker : String
  current_price : ℚ
  beta : ℚ
  news : List Headline
  scenario : String
deriving DecidableEq

/-- The derived per-ticker analysis record (spec §3 AnalysisResult): the
values computed at src/app.py lines 612-672 and consumed by the summary
card, certificate and PDF. -/
structure AnalysisResult where
  ticker : String
  base_sentiment : ℚ
  adjusted_sentiment : ℚ
  recommendation : Recommendation
  target_price : ℚ
  upside_percent : ℚ
  risk_rating : RiskRating
  beta : ℚ
  buzz : BuzzTier
  article_count : Nat
deriving DecidableEq

/-- One ticker's scoring pipeline (src/app.py lines 612-672): aggregate
news polarities, apply the scenario, classify, compute target price and
upside, risk tier and buzz.  The only failure is the `ZeroDivisionError`
of the upside computation at line 646. -/
def analyzeTicker (inp : TickerInput) : Except PyError AnalysisResult :=
  let base_sentiment := avg_polarity inp.news
  let adjusted_sentiment := apply_scenario base_sentiment inp.scenario
  let r := recommendation adjusted_sentiment
  let tp := target_price inp.current_price adjusted_sentiment
  match upside_percent tp inp.current_price with
  | .error e => .error e
  | .ok up =>
    .ok { ticker := inp.ticker
          base_sentiment := base_sentiment
          adjusted_sentiment := adjusted_sentiment
          recommendation := r
          target_price := tp
          upside_percent := up
          risk_rating := risk_rating inp.beta
          beta := inp.beta
          buzz := social_buzz inp.news.length
          article_count := inp.news.length }

/-- The multi-ticker loop (src/app.py line 542, `for i, ticker in
enumerate(selected_tickers)`): each ticker is analyzed in turn; an
uncaught exception in one iteration propagates and aborts the rest of
the script run. -/
def analyzeBatch (inps : List TickerInput) : Except PyError (List AnalysisResult) :=
  inps.mapM analyzeTicker

/-- The values drawn onto the certificate image by `generate_certificate`
(src/app.py lines 109-161).  The PNG bytes are a function of exactly
these values; `generated_at` records the `datetime.now()` timestamp that
line 155 renders into the footer. -/
structure CertificateContent where
  ticker : String
  price : ℚ
  recommendation : String
  sentiment_score : ℚ
  pe_ratio : String
  market_cap : String
  generated_at : String
deriving DecidableEq

/-- Function `generate_certificate` (src/app.py lines 109-161), modelled as the
record of values it draws; `now` is the `datetime.now()` call at
line 155. -/
def generate_certificate (ticker : String) (price : ℚ) (recommendation : String)
    (sentiment_score : ℚ) (pe_ratio market_cap : String) (now : String) :
    CertificateContent :=
  { ticker := ticker, price := price, recommendation := recommendation,
    sentiment_score := sentiment_score, pe_ratio := pe_ratio,
    market_cap := market_cap, generated_at := now }

/-- The values rendered into the PDF by `generate_pdf_report`
(src/app.py lines 163-236); `generated_at` records the
`datetime.now()` timestamp rendered at line 173, and `avg_sentiment`
the recomputed mean at lines 219-223 (`None` when no news). -/
structure PdfReportContent where
  ticker : String
  generated_at : String
  recommendation : String
  current_price : ℚ
  target_price : ℚ
  risk_rating : String
  beta : ℚ
  sentiment_score : ℚ
  social_buzz : String
  buzz_mentions : String
  market_cap : String
  pe_ratio : String
  avg_sentiment : Option ℚ
  article_count : Nat
deriving DecidableEq

/-- Function `generate_pdf_report` (src/app.py lines 163-236), modelled as the
record of values it renders (`current_price`, `market_cap`, `pe_ratio`
are the fields it reads from `info`); `now` is the `datetime.now()` call
at line 173. -/
def generate_pdf_report (ticker : String) (current_price : ℚ)
    (market_cap pe_ratio : String) (analyzed_news : List Headline)
    (recommendation : String) (tp : ℚ) (risk : String) (beta : ℚ)
    (sentiment_score : ℚ) (buzz mentions : String) (now : String) :
    PdfReportContent :=
  { ticker := ticker, generated_at := now, recommendation := recommendation,
    current_price := current_price, target_price := tp, risk_rating := risk,
    beta := beta, sentiment_score := sentiment_score, social_buzz := buzz,
    buzz_mentions := mentions, market_cap := market_cap, pe_ratio := pe_ratio,
    avg_sentiment :=
      if analyzed_news.isEmpty then none
      else some ((analyzed_news.map Headline.polarity).sum / analyzed_news.length),
    article_count := analyzed_news.length }

/-- The add branch of the watchlist toggle (src/app.py lines 573-576):
the add button exists only when `ticker not in st.session_state.watchlist`,
and pressing it runs `st.session_state.watchlist.append(ticker)`. -/
def watchlistAdd (wl : List String) (t : String) : List String :=
  if t ∈ wl then wl else wl ++ [t]

/-- The remove branch of the watchlist toggle (src/app.py lines 569-572):
the remove button exists only when `ticker in st.session_state.watchlist`,
and pressing it runs `st.session_state.watchlist.remove(ticker)`, which
deletes the first occurrence. -/
def watchlistRemove (wl : List String) (t : String) : List String :=
  if t ∈ wl then wl.erase t else wl

/-- Watchlist states reachable in a session: the list starts empty
(src/app.py lines 239-240) and evolves only through the two toggle
buttons. -/
inductive WatchlistReachable : List String → Prop where
  | init : WatchlistReachable []
  | add (wl t) : WatchlistReachable wl → WatchlistReachable (watchlistAdd wl t)
  | remove (wl t) : WatchlistReachable wl → WatchlistReachable (watchlistRemove wl t)

end StockAgent

namespace StockAgent

/-- C1: the recommendation is BUY iff the adjusted score exceeds 0.1,
SELL iff it is below -0.1, HOLD otherwise; both boundary values classify
as HOLD. -/
theorem recommendation_thresholds (s : ℚ) :
    (recommendation s = .BUY ↔ s > 1/10) ∧
    (recommendation s = .SELL ↔ s < -(1/10)) ∧
    (recommendation s = .HOLD ↔ -(1/10) ≤ s ∧ s ≤ 1/10) ∧
    recommendation (1/10) = .HOLD ∧ recommendation (-(1/10)) = .HOLD := by
  refine ⟨?_, ?_, ?_, ?_, ?_⟩ <;>
    · unfold recommendation
      split_ifs <;> simp_all <;> linarith

/-- C5: apply_scenario multiplies the base score by the fixed per-scenario
multiplier from its table. -/
theorem apply_scenario_table (b : ℚ) :
    apply_scenario b "None" = b * 1 ∧
    apply_scenario b "Interest Rates +1%" = b * (3/4) ∧
    apply_scenario b "Tech Acquisition Announced" = b * (13/10) ∧
    apply_scenario b "Global Recession Fear" = b * (1/2) ∧
    apply_scenario b "Earnings Beat Expectation" = b * (7/5) ∧
    apply_scenario b "Supply Chain Disruption" = b * (13/20) := by
  simp [apply_scenario, scenarioMultiplier]

/-- C4: an unrecognized scenario name gets the neutral multiplier 1.0, so
the base score is returned unchanged and the per-ticker pipeline still
completes (given a nonzero price, the only other failure source). -/
theorem unknown_scenario_neutral (b : ℚ) (s : String)
    (h : s ∉ recognizedScenarios) :
    apply_scenario b s = b ∧
    ∀ inp : TickerInput, inp.scenario = s → inp.current_price ≠ 0 →
      (analyzeTicker inp).isOk = true := by
  have hm : scenarioMultiplier s = 1 := by
    unfold scenarioMultiplier
    split_ifs with h1 h2 h3 h4 h5 h6 <;> first | rfl | simp_all [recognizedScenarios]
  refine ⟨by simp [apply_scenario, hm], ?_⟩
  intro inp hs hp
  simp [analyzeTicker, upside_percent, hp, Except.isOk, Except.toBool]

theorem unknown_scenario_neutral_witness :
    ("Brexit" ∉ recognizedScenarios) ∧ apply_scenario (1/2) "Brexit" = 1/2 ∧
    (analyzeTicker ⟨"XYZ", 100, 1, [], "Brexit"⟩).isOk = true := by
  have hne : ("Brexit" : String) ∉ recognizedScenarios := by decide
  have h := unknown_scenario_neutral (1/2) "Brexit" hne
  exact ⟨hne, h.1, h.2 ⟨"XYZ", 100, 1, [], "Brexit"⟩ rfl (by norm_num)⟩

end StockAgent

namespace StockAgent

/-- C6: for a positive current price, the analysis record satisfies
target_price = price * (1 + adjusted * 0.3) and
upside_percent = (target_price - price) / price * 100. -/
theorem classifier_price_formulas (inp : TickerInput) (res : AnalysisResult)
    (hp : 0 < inp.current_price) (h : analyzeTicker inp = .ok res) :
    res.target_price = inp.current_price * (1 + res.adjusted_sentiment * (3/10)) ∧
    res.upside_percent =
      (res.target_price - inp.current_price) / inp.current_price * 100 := by
  have hp0 : inp.current_price ≠ 0 := ne_of_gt hp
  simp only [analyzeTicker, upside_percent, if_neg hp0] at h
  cases h
  simp [target_price]

theorem classifier_price_formulas_witness :
    0 < (100:ℚ) ∧
    analyzeTicker ⟨"XYZ", 100, 1, [], "None"⟩ =
      .ok ⟨"XYZ", 0, 0, .HOLD, 100, 0, .Medium, 1, .Low, 0⟩ ∧
    (⟨"XYZ", 0, 0, .HOLD, 100, 0, .Medium, 1, .Low, 0⟩ : AnalysisResult).target_price =
      (⟨"XYZ", 100, 1, [], "None"⟩ : TickerInput).current_price *
        (1 + (⟨"XYZ", 0, 0, .HOLD, 100, 0, .Medium, 1, .Low, 0⟩ : AnalysisResult).adjusted_sentiment * (3/10)) ∧
    (⟨"XYZ", 0, 0, .HOLD, 100, 0, .Medium, 1, .Low, 0⟩ : AnalysisResult).upside_percent =
      ((⟨"XYZ", 0, 0, .HOLD, 100, 0, .Medium, 1, .Low, 0⟩ : AnalysisResult).target_price -
        (⟨"XYZ", 100, 1, [], "None"⟩ : TickerInput).current_price) /
        (⟨"XYZ", 100, 1, [], "None"⟩ : TickerInput).current_price * 100 := by
  have hok : analyzeTicker ⟨"XYZ", 100, 1, [], "None"⟩ =
      .ok ⟨"XYZ", 0, 0, .HOLD, 100, 0, .Medium, 1, .Low, 0⟩ := by
    simp [analyzeTicker, avg_polarity, apply_scenario, scenarioMultiplier,
      recommendation, target_price, upside_percent, risk_rating, social_buzz]
    norm_num
  have h := classifier_price_formulas ⟨"XYZ", 100, 1, [], "None"⟩
    ⟨"XYZ", 0, 0, .HOLD, 100, 0, .Medium, 1, .Low, 0⟩ (by norm_num) hok
  exact ⟨by norm_num, hok, h.1, h.2⟩

/-- C7: the analysis record's base sentiment is the arithmetic mean of the
headline polarities for non-empty news and 0 for empty news, with buzz LOW
and article count 0 in the empty case; article_count always equals the
news length. -/
theorem aggregator_mean_and_empty (inp : TickerInput) (res : AnalysisResult)
    (h : analyzeTicker inp = .ok res) :
    (inp.news ≠ [] →
      res.base_sentiment = (inp.news.map Headline.polarity).sum / inp.news.length) ∧
    (inp.news = [] →
      res.base_sentiment = 0 ∧ res.buzz = .Low ∧ res.article_count = 0) ∧
    res.article_count = inp.news.length := by
  by_cases hp : inp.current_price = 0
  · simp [analyzeTicker, upside_percent, hp] at h
  · simp only [analyzeTicker, upside_percent, if_neg hp] at h
    cases h
    refine ⟨?_, ?_, rfl⟩
    · intro hne
      simp [avg_polarity, total_polarity, hne]
    · intro he
      simp [avg_polarity, social_buzz, he]

theorem aggregator_mean_and_empty_witness :
    analyzeTicker ⟨"T", 100, 1,
        [⟨"a","p","l", 1/2⟩, ⟨"b","p","l", -(1/4)⟩], "None"⟩ =
      .ok ⟨"T", 1/8, 1/8, .BUY, 100 * (1 + (1/8) * (3/10)), (1/8) * 30,
            .Medium, 1, .Low, 2⟩ ∧
    (⟨"T", 1/8, 1/8, .BUY, 100 * (1 + (1/8) * (3/10)), (1/8) * 30,
        .Medium, 1, .Low, 2⟩ : AnalysisResult).base_sentiment =
      (([⟨"a","p","l", 1/2⟩, ⟨"b","p","l", -(1/4)⟩] : List Headline).map
        Headline.polarity).sum / ([⟨"a","p","l", 1/2⟩, ⟨"b","p","l", -(1/4)⟩] : List Headline).length ∧
    (⟨"T", 1/8, 1/8, .BUY, 100 * (1 + (1/8) * (3/10)), (1/8) * 30,
        .Medium, 1, .Low, 2⟩ : AnalysisResult).article_count =
      (⟨"T", 100, 1, [⟨"a","p","l", 1/2⟩, ⟨"b","p","l", -(1/4)⟩], "None"⟩ : TickerInput).news.length := by
  have hok : analyzeTicker ⟨"T", 100, 1,
      [⟨"a","p","l", 1/2⟩, ⟨"b","p","l", -(1/4)⟩], "None"⟩ =
      .ok ⟨"T", 1/8, 1/8, .BUY, 100 * (1 + (1/8) * (3/10)), (1/8) * 30,
            .Medium, 1, .Low, 2⟩ := by
    simp [analyzeTicker, avg_polarity, total_polarity, apply_scenario,
      scenarioMultiplier, recommendation, target_price, upside_percent,
      risk_rating, social_buzz]
    norm_num
  have h := aggregator_mean_and_empty _ _ hok
  exact ⟨hok, h.1 (by simp), h.2.2⟩

/-- C9: permuting the news list never changes the aggregated base score. -/
theorem aggregation_order_independent (l1 l2 : List Headline) (h : l1.Perm l2) :
    avg_polarity l1 = avg_polarity l2 := by
  have hsum : (l1.map Headline.polarity).sum = (l2.map Headline.polarity).sum :=
    (h.map Headline.polarity).sum_eq
  have hlen : l1.length = l2.length := h.length_eq
  rcases l1 with _ | ⟨a, t⟩
  · have h2 : l2 = [] := h.symm.eq_nil
    simp [h2]
  · rcases l2 with _ | ⟨b, u⟩
    · simp at hlen
    · simp only [avg_polarity, total_polarity, List.isEmpty_cons, Bool.false_eq_true,
        if_false]
      rw [hsum, hlen]

end StockAgent

namespace StockAgent

theorem aggregation_order_independent_witness :
    ([⟨"a","p","l", 1/2⟩, ⟨"b","p","l", -(1/4)⟩] : List Headline).Perm
      [⟨"b","p","l", -(1/4)⟩, ⟨"a","p","l", 1/2⟩] ∧
    avg_polarity [⟨"a","p","l", 1/2⟩, ⟨"b","p","l", -(1/4)⟩] =
      avg_polarity [⟨"b","p","l", -(1/4)⟩, ⟨"a","p","l", 1/2⟩] :=
  ⟨List.Perm.swap _ _ _,
    aggregation_order_independent _ _ (List.Perm.swap _ _ _)⟩

/-- C10: every watchlist reachable from the empty initial state through the
guarded add and remove toggles is duplicate-free. -/
theorem watchlist_nodup (wl : List String) (h : WatchlistReachable wl) :
    wl.Nodup := by
  induction h with
  | init => exact List.nodup_nil
  | add wl t _ ih =>
      unfold watchlistAdd
      split_ifs with hmem
      · exact ih
      · simp [List.nodup_append, ih, hmem]
  | remove wl t _ ih =>
      unfold watchlistRemove
      split_ifs with hmem
      · exact ih.erase t
      · exact ih

theorem watchlist_nodup_witness :
    WatchlistReachable ["AAPL", "TSLA"] ∧ (["AAPL", "TSLA"] : List String).Nodup := by
  have h1 : WatchlistReachable ["AAPL"] := by
    have := WatchlistReachable.add [] "AAPL" WatchlistReachable.init
    simpa [watchlistAdd] using this
  have h2 : WatchlistReachable ["AAPL", "TSLA"] := by
    have := WatchlistReachable.add ["AAPL"] "TSLA" h1
    simpa [watchlistAdd] using this
  exact ⟨h2, watchlist_nodup _ h2⟩

/-- C3 counterexample: the base score 1 lies in [-1,1] and the scenario
"Earnings Beat Expectation" is recognized, yet the adjusted score is
1.4 > 1, leaving [-1,1]. -/
theorem adjusted_score_exceeds_one :
    (-1 ≤ (1:ℚ) ∧ (1:ℚ) ≤ 1) ∧
    "Earnings Beat Expectation" ∈ recognizedScenarios ∧
    1 < apply_scenario 1 "Earnings Beat Expectation" := by
  refine ⟨by norm_num, by decide, ?_⟩
  simp [apply_scenario, scenarioMultiplier]
  norm_num

/-- C3 amended: with every headline polarity in [-1,1], the base score
(their mean) stays in [-1,1], but the adjusted score is only bounded by
the largest multiplier: |adjusted| ≤ 1.4. -/
theorem sentiment_score_bounds (news : List Headline) (scenario : String)
    (hpol : ∀ hl ∈ news, -1 ≤ hl.polarity ∧ hl.polarity ≤ 1) :
    (-1 ≤ avg_polarity news ∧ avg_polarity news ≤ 1) ∧
    |apply_scenario (avg_polarity news) scenario| ≤ 7/5 := by
  have hbase : -1 ≤ avg_polarity news ∧ avg_polarity news ≤ 1 := by
    rcases news with _ | ⟨a, t⟩
    · simp [avg_polarity]
    · have hlen : (0:ℚ) < (a :: t).length := by
        simp
        positivity
      have hup : ((a :: t).map Headline.polarity).sum ≤ ((a :: t).length : ℚ) := by
        have := List.sum_le_card_nsmul ((a :: t).map Headline.polarity) 1 ?_
        · simpa using this
        · intro x hx
          rcases List.mem_map.mp hx with ⟨hl, hhl, rfl⟩
          exact (hpol hl hhl).2
      have hdown : (-((a :: t).length : ℚ)) ≤ ((a :: t).map Headline.polarity).sum := by
        have := List.card_nsmul_le_sum ((a :: t).map Headline.polarity) (-1) ?_
        · simpa using this
        · intro x hx
          rcases List.mem_map.mp hx with ⟨hl, hhl, rfl⟩
          exact (hpol hl hhl).1
      constructor
      · rw [avg_polarity]
        simp only [List.isEmpty_cons, Bool.false_eq_true, if_false, total_polarity]
        rw [le_div_iff₀ hlen]
        linarith
      · rw [avg_polarity]
        simp only [List.isEmpty_cons, Bool.false_eq_true, if_false, total_polarity]
        rw [div_le_one hlen]
        linarith
  refine ⟨hbase, ?_⟩
  have hm : |scenarioMultiplier scenario| ≤ 7/5 := by
    unfold scenarioMultiplier
    split_ifs <;> norm_num [abs_le]
  have hb : |avg_polarity news| ≤ 1 := abs_le.mpr hbase
  calc |apply_scenario (avg_polarity news) scenario|
      = |avg_polarity news| * |scenarioMultiplier scenario| := abs_mul _ _
    _ ≤ 1 * (7/5) := by
        exact mul_le_mul hb hm (abs_nonneg _) (by norm_num)
    _ = 7/5 := by norm_num

theorem sentiment_score_bounds_witness :
    (∀ hl ∈ ([⟨"a","p","l", 1/2⟩] : List Headline), -1 ≤ hl.polarity ∧ hl.polarity ≤ 1) ∧
    (-1 ≤ avg_polarity [⟨"a","p","l", 1/2⟩] ∧ avg_polarity [⟨"a","p","l", 1/2⟩] ≤ 1) ∧
    |apply_scenario (avg_polarity [⟨"a","p","l", 1/2⟩]) "Earnings Beat Expectation"| ≤ 7/5 := by
  have hpol : ∀ hl ∈ ([⟨"a","p","l", 1/2⟩] : List Headline),
      -1 ≤ hl.polarity ∧ hl.polarity ≤ 1 := by
    intro hl hhl
    simp at hhl
    subst hhl
    norm_num
  have h := sentiment_score_bounds [⟨"a","p","l", 1/2⟩] "Earnings Beat Expectation" hpol
  exact ⟨hpol, h.1, h.2⟩

end StockAgent

namespace StockAgent

/-- C2 counterexample: at current_price = -5 ≤ 0 the per-ticker pipeline
succeeds (no InvalidPriceError exists in the code), and when one ticker has
price 0 the resulting ZeroDivisionError aborts the whole batch, so sibling
tickers do not proceed. -/
theorem nonpositive_price_not_rejected :
    (-5 : ℚ) ≤ 0 ∧
    analyzeTicker ⟨"XYZ", -5, 1, [], "None"⟩ =
      .ok ⟨"XYZ", 0, 0, .HOLD, -5, 0, .Medium, 1, .Low, 0⟩ ∧
    analyzeBatch [⟨"A", 0, 1, [], "None"⟩, ⟨"B", 100, 1, [], "None"⟩] =
      .error .zeroDivisionError := by
  refine ⟨by norm_num, ?_, ?_⟩
  · simp [analyzeTicker, avg_polarity, apply_scenario, scenarioMultiplier,
      recommendation, target_price, upside_percent, risk_rating, social_buzz]
    norm_num
  · simp [analyzeBatch, List.mapM, List.mapM.loop, analyzeTicker, upside_percent,
      Except.instMonad, Except.bind]

/-- C2 amended: the pipeline fails only at current_price = 0, with Python's
ZeroDivisionError from the upside computation at line 646, and that
failure aborts the remaining tickers of the batch; any nonzero price,
negative prices included, completes successfully. -/
theorem zero_price_division_failure (inp : TickerInput) (rest : List TickerInput) :
    (inp.current_price = 0 →
      analyzeTicker inp = .error .zeroDivisionError ∧
      analyzeBatch (inp :: rest) = .error .zeroDivisionError) ∧
    (inp.current_price ≠ 0 → (analyzeTicker inp).isOk = true) := by
  constructor
  · intro hp
    have h1 : analyzeTicker inp = .error .zeroDivisionError := by
      simp [analyzeTicker, upside_percent, hp]
    refine ⟨h1, ?_⟩
    simp [analyzeBatch, List.mapM, List.mapM.loop, h1, Except.instMonad, Except.bind]
  · intro hp
    simp [analyzeTicker, upside_percent, hp, Except.isOk, Except.toBool]

theorem zero_price_division_failure_witness :
    analyzeTicker ⟨"A", 0, 1, [], "None"⟩ = .error .zeroDivisionError ∧
    analyzeBatch [⟨"A", 0, 1, [], "None"⟩, ⟨"B", 100, 1, [], "None"⟩] =
      .error .zeroDivisionError ∧
    (analyzeTicker ⟨"B", 100, 1, [], "None"⟩).isOk = true := by
  have h1 := (zero_price_division_failure ⟨"A", 0, 1, [], "None"⟩
      [⟨"B", 100, 1, [], "None"⟩]).1 rfl
  have h2 := (zero_price_division_failure ⟨"B", 100, 1, [], "None"⟩ []).2 (by norm_num)
  exact ⟨h1.1, h1.2, h2⟩

/-- C8 counterexample: regenerating the certificate from identical analysis
inputs at a later datetime.now() yields a different certificate, so repeated
assembly is not byte-for-byte identical. -/
theorem certificate_not_idempotent :
    generate_certificate "XYZ" 100 "HOLD" 0 "N/A" "N/A" "2025-01-01 00:00" ≠
      generate_certificate "XYZ" 100 "HOLD" 0 "N/A" "N/A" "2025-01-01 00:01" := by
  intro h
  exact absurd (congrArg CertificateContent.generated_at h) (by decide)

/-- C8 amended: re-assembly from identical inputs is deterministic in every
rendered field except the embedded generation timestamp: certificates and
PDF reports produced at different times agree on all fields other than
generated_at. -/
theorem report_deterministic_up_to_timestamp
    (ticker : String) (price : ℚ) (recommendation : String) (score : ℚ)
    (pe mc : String) (cp tp beta' : ℚ) (risk buzz mentions : String)
    (analyzed_news : List Headline) (t1 t2 : String) :
    ((generate_certificate ticker price recommendation score pe mc t1).ticker =
        (generate_certificate ticker price recommendation score pe mc t2).ticker ∧
      (generate_certificate ticker price recommendation score pe mc t1).price =
        (generate_certificate ticker price recommendation score pe mc t2).price ∧
      (generate_certificate ticker price recommendation score pe mc t1).recommendation =
        (generate_certificate ticker price recommendation score pe mc t2).recommendation ∧
      (generate_certificate ticker price recommendation score pe mc t1).sentiment_score =
        (generate_certificate ticker price recommendation score pe mc t2).sentiment_score ∧
      (generate_certificate ticker price recommendation score pe mc t1).pe_ratio =
        (generate_certificate ticker price recommendation score pe mc t2).pe_ratio ∧
      (generate_certificate ticker price recommendation score pe mc t1).market_cap =
        (generate_certificate ticker price recommendation score pe mc t2).market_cap) ∧
    ((generate_pdf_report ticker cp mc pe analyzed_news recommendation tp risk beta'
        score buzz mentions t1).ticker =
      (generate_pdf_report ticker cp mc pe analyzed_news recommendation tp risk beta'
        score buzz mentions t2).ticker ∧
      (generate_pdf_report ticker cp mc pe analyzed_news recommendation tp risk beta'
        score buzz mentions t1).recommendation =
      (generate_pdf_report ticker cp mc pe analyzed_news recommendation tp risk beta'
        score buzz mentions t2).recommendation ∧
      (generate_pdf_report ticker cp mc pe analyzed_news recommendation tp risk beta'
        score buzz mentions t1).current_price =
      (generate_pdf_report ticker cp mc pe analyzed_news recommendation tp risk beta'
        score buzz mentions t2).current_price ∧
      (generate_pdf_report ticker cp mc pe analyzed_news recommendation tp risk beta'
        score buzz mentions t1).target_price =
      (generate_pdf_report ticker cp mc pe analyzed_news recommendation tp risk beta'
        score buzz mentions t2).target_price ∧
      (generate_pdf_report ticker cp mc pe analyzed_news recommendation tp risk beta'
        score buzz mentions t1).risk_rating =
      (generate_pdf_report ticker cp mc pe analyzed_news recommendation tp risk beta'
        score buzz mentions t2).risk_rating ∧
      (generate_pdf_report ticker cp mc pe analyzed_news recommendation tp risk beta'
        score buzz mentions t1).beta =
      (generate_pdf_report ticker cp mc pe analyzed_news recommendation tp risk beta'
        score buzz mentions t2).beta ∧
      (generate_pdf_report ticker cp mc pe analyzed_news recommendation tp risk beta'
        score buzz mentions t1).sentiment_score =
      (generate_pdf_report ticker cp mc pe analyzed_news recommendation tp risk beta'
        score buzz mentions t2).sentiment_score ∧
      (generate_pdf_report ticker cp mc pe analyzed_news recommendation tp risk beta'
        score buzz mentions t1).social_buzz =
      (generate_pdf_report ticker cp mc pe analyzed_news recommendation tp risk beta'
        score buzz mentions t2).social_buzz ∧
      (generate_pdf_report ticker cp mc pe analyzed_news recommendation tp risk beta'
        score buzz mentions t1).buzz_mentions =
      (generate_pdf_report ticker cp mc pe analyzed_news recommendation tp risk beta'
        score buzz mentions t2).buzz_mentions ∧
      (generate_pdf_report ticker cp mc pe analyzed_news recommendation tp risk beta'
        score buzz mentions t1).market_cap =
      (generate_pdf_report ticker cp mc pe analyzed_news recommendation tp risk beta'
        score buzz mentions t2).market_cap ∧
      (generate_pdf_report ticker cp mc pe analyzed_news recommendation tp risk beta'
        score buzz mentions t1).pe_ratio =
      (generate_pdf_report ticker cp mc pe analyzed_news recommendation tp risk beta'
        score buzz mentions t2).pe_ratio ∧
      (generate_pdf_report ticker cp mc pe analyzed_news recommendation tp risk beta'
        score buzz mentions t1).avg_sentiment =
      (generate_pdf_report ticker cp mc pe analyzed_news recommendation tp risk beta'
        score buzz mentions t2).avg_sentiment ∧
      (generate_pdf_report ticker cp mc pe analyzed_news recommendation tp risk beta'
        score buzz mentions t1).article_count =
      (generate_pdf_report ticker cp mc pe analyzed_news recommendation tp risk beta'
        score buzz mentions t2).article_count) :=
  ⟨⟨rfl, rfl, rfl, rfl, rfl, rfl⟩,
    ⟨rfl, rfl, rfl, rfl, rfl, rfl, rfl, rfl, rfl, rfl, rfl, rfl, rfl⟩⟩

end StockAgent
